import Mathlib

/-!
Shallow embedding of `src/java.c` (the collectd Java bridge plugin) and
proofs about the claims on its behavior.

Modelling conventions, used throughout:

* C machine integers are modelled as `Int`.  The one narrowing conversion a
  claim touches, the `(int)` cast in `jtoc_value_list`, is made explicit by
  `toInt32`.  Signed 64-bit overflow is undefined behavior in C and is not
  modelled (values stay unbounded).
* `double` values (`gauge_t`, `min`/`max` bounds, `OCONFIG_TYPE_NUMBER`) are
  carried around opaquely; no claim performs floating-point arithmetic on
  them, so they are represented by an opaque `Int` code that the conversion
  functions merely transport.
* The `value_t` union is modelled as a record with both members; the code
  only ever reads the member selected by the schema's `ds_type`, so the
  aliasing of the two members is never observable in the claims.
* JNI class / method / constructor lookups (`FindClass`, `GetMethodID`) and
  native allocations are environment failures that do not depend on the
  data being converted; on the Java-to-C side they are modelled by the
  `Option`-valued accessor fields of the managed-object records (a `none`
  accessor is a failed lookup or a failed call), on the C-to-Java side the
  lookups are modelled as succeeding and the data-dependent failure paths
  (an unknown `ds_type` in `ctoj_value_to_number`, out-of-range indexing)
  are kept.
* A managed object is observed through the calls made on it: the records
  below store exactly the arguments the C code passes to the setter /
  `addValue` / constructor calls, in call order where order matters.
* External collaborators (`plugin_dispatch_values`, `plugin_get_ds`,
  `plugin_unregister_read`, the JVM attach/detach primitives, the managed
  callbacks' return statuses) are parameters or oracles, and the calls made
  to them are returned as explicit traces so that call counts and call
  order can be stated.
* Fixed-size string buffers (`sstrncpy` truncation) are not modelled; the
  claims do not mention truncation of identifying strings.
-/

namespace CollectdJava

/-- ds_type tag `DS_TYPE_COUNTER` from plugin.h. -/
def DS_TYPE_COUNTER : Int := 0

/-- ds_type tag `DS_TYPE_GAUGE` from plugin.h. -/
def DS_TYPE_GAUGE : Int := 1

/-- Callback-kind tag `CB_TYPE_CONFIG`. -/
def CB_TYPE_CONFIG : Int := 1

/-- Callback-kind tag `CB_TYPE_INIT`. -/
def CB_TYPE_INIT : Int := 2

/-- Callback-kind tag `CB_TYPE_READ`. -/
def CB_TYPE_READ : Int := 3

/-- Callback-kind tag `CB_TYPE_WRITE`. -/
def CB_TYPE_WRITE : Int := 4

/-- Callback-kind tag `CB_TYPE_SHUTDOWN`. -/
def CB_TYPE_SHUTDOWN : Int := 5

/-- The C `(int)` cast: wrap to the signed 32-bit range. -/
def toInt32 (n : Int) : Int := (n + 2 ^ 31) % 2 ^ 32 - 2 ^ 31

/-- The C `/` on signed integers truncates toward zero; `Int.div` does too. -/
def cDiv (a b : Int) : Int := Int.tdiv a b

/-- The `value_t` union of collectd.  Both members are carried; the code
only reads the member selected by the schema type. -/
structure value_t where
  counter : Int
  gauge : Int
deriving DecidableEq, Repr

/-- `data_source_t`: one field of a schema (name, type, min, max). -/
structure data_source_t where
  name : String
  type : Int
  min : Int
  max : Int
deriving DecidableEq, Repr

/-- `data_set_t`: a named, ordered list of data sources. -/
structure data_set_t where
  type : String
  ds : List data_source_t
deriving DecidableEq, Repr

/-- `value_list_t`: the native value record.  `values_len` is implicit as
`values.length`. -/
structure value_list_t where
  values : List value_t
  time : Int
  interval : Int
  host : String
  plugin : String
  plugin_instance : String
  type : String
  type_instance : String
deriving DecidableEq, Repr

/-- `oconfig_value_t`: a typed scalar of the configuration tree.  The
`boolean` member is a C `int` as in oconfig.h. -/
inductive oconfig_value_t where
  | boolean (b : Int)
  | string (s : String)
  | number (n : Int)
deriving DecidableEq, Repr

/-- `oconfig_item_t`: a configuration-tree node (key, values, children). -/
inductive oconfig_item_t where
  | mk (key : String) (values : List oconfig_value_t)
       (children : List oconfig_item_t)

/-- Key of a configuration-tree node. -/
def oconfig_item_t.key : oconfig_item_t → String
  | .mk k _ _ => k

/-- Value list of a configuration-tree node. -/
def oconfig_item_t.values : oconfig_item_t → List oconfig_value_t
  | .mk _ v _ => v

/-- Child list of a configuration-tree node. -/
def oconfig_item_t.children : oconfig_item_t → List oconfig_item_t
  | .mk _ _ c => c

/-
Thread Attachment Registry: `cjni_thread_attach` / `cjni_thread_detach`.

`ThreadState` bundles the thread-local binding (`pthread_getspecific` on
`jvm_env_key`) with counters of the runtime operations performed so far on
this thread, so that "performs exactly one runtime attach" is statable.
The JNIEnv pointer handed out by `AttachCurrentThread` is modelled as a
`Nat` handle (fresh per attach).
-/

/-- `cjni_jvm_env_t`: the per-thread binding record. -/
structure cjni_jvm_env_t where
  jvm_env : Option Nat
  reference_counter : Int
deriving DecidableEq, Repr

/-- Per-thread state: the thread-specific binding plus counters of the
`AttachCurrentThread` / `DetachCurrentThread` operations performed. -/
structure ThreadState where
  binding : Option cjni_jvm_env_t
  attachCalls : Nat
  detachCalls : Nat
deriving DecidableEq, Repr

/-- A thread that has never attached: no binding, no runtime operations. -/
def threadFresh : ThreadState :=
  { binding := none, attachCalls := 0, detachCalls := 0 }

/-- `cjni_thread_attach`: if the thread has no binding, allocate one with a
zero counter; if the counter is positive, increment it and reuse the stored
JNIEnv; otherwise perform `AttachCurrentThread` (counted; it may fail when
`attachOk` is false, mirroring a nonzero status), set the counter to 1 and
store the fresh JNIEnv.  Returns the JNIEnv (or `none` on failure) and the
updated thread state. -/
def cjni_thread_attach (attachOk : Bool) (s : ThreadState) :
    Option Nat × ThreadState :=
  let cenv := s.binding.getD { jvm_env := none, reference_counter := 0 }
  if cenv.reference_counter > 0 then
    let cenv1 : cjni_jvm_env_t :=
      { cenv with reference_counter := cenv.reference_counter + 1 }
    (cenv.jvm_env, { s with binding := some cenv1 })
  else
    if attachOk then
      (some s.attachCalls,
       { binding := some ({ jvm_env := some s.attachCalls, reference_counter := 1 }),
         attachCalls := s.attachCalls + 1,
         detachCalls := s.detachCalls })
    else
      (none, { s with binding := some cenv })

/-- `cjni_thread_detach`: decrement the reference counter; while it stays
positive do nothing else; at zero perform `DetachCurrentThread` (counted;
its own failure is only logged) and clear the stored JNIEnv.  Returns
`some (status, state)`; the two C `assert`s (positive counter, non-null
JNIEnv) are modelled as `none` (aborted execution). -/
def cjni_thread_detach (s : ThreadState) : Option (Int × ThreadState) :=
  match s.binding with
  | none => some (-1, s)
  | some cenv =>
    if cenv.reference_counter ≤ 0 then none
    else if cenv.jvm_env = none then none
    else
      let c := cenv.reference_counter - 1
      if c > 0 then
        some (0, { s with binding := some ({ cenv with reference_counter := c }) })
      else
        some (0, { s with
          binding := some ({ jvm_env := none, reference_counter := 0 }),
          detachCalls := s.detachCalls + 1 })

/-
Java-to-C marshaling: `jtoc_value`, `jtoc_values_array`, `jtoc_value_list`
and the Java-callable entry point `cjni_api_dispatch_values`.

A managed object is modelled by the results of the accessor-call chains the
C code performs on it; a `none` field is any failure in that chain (a
`GetMethodID` lookup failure, a null result from the call, a failed
`GetStringUTFChars`).
-/

/-- A managed `java.lang.Number`, as observed by `jtoc_value`:
the result of calling `longValue()` respectively `doubleValue()`
(`none` when the lookup or the call fails). -/
structure JNumberObj where
  longValue : Option Int
  doubleValue : Option Int
deriving DecidableEq, Repr

/-- A managed `org.collectd.api.ValueList`, as observed by
`jtoc_value_list`: the results of the getter chains the C code performs.
`getValues` is the combined `getValues()` / `toArray()` chain of
`jtoc_values_array`; `classOk` is the initial `GetObjectClass` call. -/
structure JValueListObj where
  classOk : Bool
  getType : Option String
  getHost : Option String
  getPlugin : Option String
  getPluginInstance : Option String
  getTypeInstance : Option String
  getTime : Option Int
  getInterval : Option Int
  getValues : Option (List JNumberObj)
deriving DecidableEq, Repr

/-- `jtoc_value`: for a COUNTER schema type call `longValue()` and store it
in the `counter` member; for any other schema type call `doubleValue()` and
store it in the `gauge` member.  The destination `value_t` comes from the
zero-initialized `calloc` block of `jtoc_values_array`. -/
def jtoc_value (ds_type : Int) (o : JNumberObj) : Option value_t :=
  if ds_type = DS_TYPE_COUNTER then
    match o.longValue with
    | none => none
    | some l => some { counter := l, gauge := 0 }
  else
    match o.doubleValue with
    | none => none
    | some d => some { counter := 0, gauge := d }

/-- `jtoc_values_array`: fetch the managed number list (`getValues` /
`toArray`), then convert exactly `ds->ds_num` elements with `jtoc_value`;
a missing array element (`GetObjectArrayElement` returning null, i.e. the
managed list being shorter than the schema) or any `jtoc_value` failure
aborts the conversion.  Elements beyond the schema length are ignored. -/
def jtoc_values_array (ds : data_set_t) (o : JValueListObj) :
    Option (List value_t) :=
  match o.getValues with
  | none => none
  | some arr =>
    (List.range ds.ds.length).mapM (fun i =>
      match arr[i]? with
      | none => none
      | some num =>
        match ds.ds[i]? with
        | none => none
        | some dsrc => jtoc_value dsrc.type num)

/-- `jtoc_value_list`: convert a managed ValueList to a `value_list_t`.
The type string is read first and resolved against the schema registry
(`plugin_get_ds`, the `ds_lookup` oracle); then the remaining strings, the
time (milliseconds divided by 1000), the interval (plain `(int)` cast, no
unit conversion) and the values array.  Any failure aborts with `none`
(the C function returns -1). -/
def jtoc_value_list (ds_lookup : String → Option data_set_t)
    (o : JValueListObj) : Option value_list_t :=
  if o.classOk = false then none else
  match o.getType with
  | none => none
  | some ty =>
  match ds_lookup ty with
  | none => none
  | some ds =>
  match o.getHost with
  | none => none
  | some host =>
  match o.getPlugin with
  | none => none
  | some plugin =>
  match o.getPluginInstance with
  | none => none
  | some pinst =>
  match o.getTypeInstance with
  | none => none
  | some tinst =>
  match o.getTime with
  | none => none
  | some t =>
  match o.getInterval with
  | none => none
  | some iv =>
  match jtoc_values_array ds o with
  | none => none
  | some vals =>
    some { values := vals, time := cDiv t 1000, interval := toInt32 iv,
           host := host, plugin := plugin, plugin_instance := pinst,
           type := ty, type_instance := tinst }

/-- `cjni_api_dispatch_values`: the `DispatchValues` entry point.  Convert
with `jtoc_value_list`; on failure return -1 without dispatching; on
success hand the converted record to `plugin_dispatch_values` (the `pdv`
oracle) and return its status.  The second component is the list of value
lists passed to `plugin_dispatch_values` during the call. -/
def cjni_api_dispatch_values (pdv : value_list_t → Int)
    (ds_lookup : String → Option data_set_t) (o : JValueListObj) :
    Int × List value_list_t :=
  match jtoc_value_list ds_lookup o with
  | none => (-1, [])
  | some vl => (pdv vl, [vl])

/-
C-to-Java marshaling: `ctoj_value_to_number`, `ctoj_data_source`,
`ctoj_data_set`, `ctoj_value_list`, and the configuration-tree conversion
`ctoj_oconfig_value` / `ctoj_oconfig_item`.

Class and method lookups are modelled as succeeding (see the header);
the managed objects are recorded as the arguments of the constructor and
setter calls the C code performs.
-/

/-- A managed `java.lang.Number`: either `java.lang.Long`-backed (from
`ctoj_jlong_to_number`) or `java.lang.Double`-backed (from
`ctoj_jdouble_to_number`). -/
inductive NumberJ where
  | long (v : Int)
  | double (v : Int)
deriving DecidableEq, Repr

/-- A managed `org.collectd.api.DataSource` as built by
`ctoj_data_source` through its four setters. -/
structure DataSourceJ where
  name : String
  type : Int
  min : Int
  max : Int
deriving DecidableEq, Repr

/-- A managed `org.collectd.api.DataSet` as built by `ctoj_data_set`:
the constructor's type string plus the `addDataSource` calls in order. -/
structure DataSetJ where
  type : String
  sources : List DataSourceJ
deriving DecidableEq, Repr

/-- A managed `org.collectd.api.ValueList` as built by `ctoj_value_list`:
the `setDataSet`, string-setter, `setTime`, `setInterval` and `addValue`
call arguments. -/
structure ValueListJ where
  dataset : DataSetJ
  host : String
  plugin : String
  plugin_instance : String
  type : String
  type_instance : String
  time : Int
  interval : Int
  values : List NumberJ
deriving DecidableEq, Repr

/-- `ctoj_value_to_number`: a COUNTER becomes a Long-backed number, a
GAUGE a Double-backed number, any other ds_type fails (returns null). -/
def ctoj_value_to_number (value : value_t) (ds_type : Int) :
    Option NumberJ :=
  if ds_type = DS_TYPE_COUNTER then some (NumberJ.long value.counter)
  else if ds_type = DS_TYPE_GAUGE then some (NumberJ.double value.gauge)
  else none

/-- `ctoj_data_source`: copy name, type, min and max via the setters. -/
def ctoj_data_source (dsrc : data_source_t) : DataSourceJ :=
  { name := dsrc.name, type := dsrc.type, min := dsrc.min, max := dsrc.max }

/-- `ctoj_data_set`: construct from the type string and add every data
source in native order. -/
def ctoj_data_set (ds : data_set_t) : DataSetJ :=
  { type := ds.type, sources := ds.ds.map ctoj_data_source }

/-- `ctoj_value_list`: build the managed ValueList.  The data set and the
identifying strings are copied; the `time` member is the native time
multiplied by 1000 (Java stores milliseconds); the `interval` member is
the native interval unchanged; each value is converted against the
schema type at the same index (`ctoj_value_list_add_value`).  An invalid
ds_type, or a value index beyond the schema's field list (an
out-of-bounds `ds->ds[i]` read in C, modelled as failure), aborts. -/
def ctoj_value_list (ds : data_set_t) (vl : value_list_t) :
    Option ValueListJ :=
  match (List.range vl.values.length).mapM (fun i =>
      match vl.values[i]? with
      | none => none
      | some v =>
        match ds.ds[i]? with
        | none => none
        | some dsrc => ctoj_value_to_number v dsrc.type) with
  | none => none
  | some nums =>
    some { dataset := ctoj_data_set ds,
           host := vl.host, plugin := vl.plugin,
           plugin_instance := vl.plugin_instance,
           type := vl.type, type_instance := vl.type_instance,
           time := vl.time * 1000, interval := vl.interval,
           values := nums }

/-- Apply a successful attach and keep only the state. -/
def attachStep (s : ThreadState) : ThreadState :=
  (cjni_thread_attach true s).2

/-- Apply a detach and keep only the state (identity on the aborting
assert paths, which the scenarios below never reach). -/
def detachStep (s : ThreadState) : ThreadState :=
  match cjni_thread_detach s with
  | some (_, s1) => s1
  | none => s

/-
Configuration-tree conversion: `ctoj_oconfig_value` / `ctoj_oconfig_item`.

The managed `OConfigItem` is observed as its constructor key plus the
sequence of `CallVoidMethod` calls made on it, each recorded as the name
the method id was resolved from together with its argument.
-/

/-- A managed `org.collectd.api.OConfigValue`, by constructor used:
boolean, String, or Number (Double-backed, via `ctoj_jdouble_to_number`). -/
inductive OCValueJ where
  | boolean (b : Bool)
  | string (s : String)
  | number (n : Int)
deriving DecidableEq, Repr

/-- A managed `org.collectd.api.OConfigItem`: the constructor's key and
the void-method calls made on the object, in order.  Each call is the
name the method id was resolved from (`addValue` or `addChild`) paired
with its argument, an `OCValueJ` or a nested `OCItem`. -/
inductive OCItem where
  | mk (key : String) (calls : List (String × (OCValueJ ⊕ OCItem)))

/-- `ctoj_oconfig_value`: dispatch on the value's type tag; booleans are
compared against 0, strings and numbers are copied. -/
def ctoj_oconfig_value (ocvalue : oconfig_value_t) : OCValueJ :=
  match ocvalue with
  | .boolean b => OCValueJ.boolean (¬ (b = 0))
  | .string s => OCValueJ.string s
  | .number n => OCValueJ.number n

mutual

/-- `ctoj_oconfig_item`: construct the managed node from the key, then for
each native value call the method resolved from `addValue`, then for each
native child recurse and call — as the C code does on line 579 — the
method resolved from `addValue` again (`m_addchild` is resolved on entry
but never invoked). -/
def ctoj_oconfig_item : oconfig_item_t → OCItem
  | .mk key values children =>
    OCItem.mk key
      ((values.map (fun v => ("addValue", Sum.inl (ctoj_oconfig_value v))))
        ++ ctoj_oconfig_children children)

/-- The `addChild`-loop of `ctoj_oconfig_item` (which actually invokes the
`addValue` method id), child by child in order. -/
def ctoj_oconfig_children : List oconfig_item_t →
    List (String × (OCValueJ ⊕ OCItem))
  | [] => []
  | c :: rest =>
    ("addValue", Sum.inr (ctoj_oconfig_item c)) :: ctoj_oconfig_children rest

end

/-
Plugin-block configuration: `cjni_config_plugin_block` over the global
`java_plugin_configs` list.  `oconfig_clone` and the native allocations
are modelled as succeeding; the warnings the call prints are returned so
that "a warning is produced" is statable.
-/

/-- `java_plugin_config_t`: one stored Plugin block (name and cloned
configuration tree). -/
structure java_plugin_config_t where
  name : String
  ci : oconfig_item_t

/-- Result of `cjni_config_plugin_block`: the returned status, the updated
`java_plugin_configs` list, and the warnings printed during the call. -/
structure ConfigBlockResult where
  status : Int
  configs : List java_plugin_config_t
  warnings : List String

/-- `cjni_config_plugin_block`: a Plugin block must carry exactly one
string argument (else warn and return -1).  If a block with the same name
is already stored, warn, keep the stored list unchanged and return 0
(first block wins).  Otherwise append the block (name plus cloned tree)
and return 0. -/
def cjni_config_plugin_block (configs : List java_plugin_config_t)
    (ci : oconfig_item_t) : ConfigBlockResult :=
  match ci.values with
  | [oconfig_value_t.string name] =>
    if configs.any (fun c => c.name = name) then
      { status := 0, configs := configs,
        warnings := ["java plugin: There is more than one <Plugin \"" ++ name
          ++ "\"> block. This is currently not supported - "
          ++ "only the first block will be used!"] }
    else
      { status := 0, configs := configs ++ [{ name := name, ci := ci }],
        warnings := [] }
  | _ =>
    { status := -1, configs := configs,
      warnings := ["java plugin: Plugin blocks need exactly one string argument."] }

/-
Callback Registry: `cjni_callback_info_create` and the orchestration
functions iterating over the registered callbacks.

A JNI object reference is either caller-scoped (local) or durable
(global); `NewGlobalRef` mints a fresh global handle.
-/

/-- A JNI object reference: a caller-scoped local reference or a durable
global reference, each with an identity. -/
inductive JRef where
  | localRef (id : Nat)
  | globalRef (id : Nat)
deriving DecidableEq, Repr

/-- `cjni_callback_info_t`: a registered callback descriptor.  The method
id is modelled by the method name it was resolved from; `object` is the
reference stored in the descriptor (`none` models a null jobject, as left
behind by the clears in `cjni_shutdown`). -/
structure cjni_callback_info_t where
  name : String
  type : Int
  object : Option JRef
  method : String
deriving DecidableEq, Repr

/-- The fixed method name and signature `cjni_callback_info_create`
resolves for each callback kind; an unknown kind fails. -/
def cjni_callback_method_of_type (type : Int) : Option (String × String) :=
  if type = CB_TYPE_CONFIG then
    some ("Config", "(Lorg/collectd/api/OConfigItem;)I")
  else if type = CB_TYPE_INIT then some ("Init", "()I")
  else if type = CB_TYPE_READ then some ("Read", "()I")
  else if type = CB_TYPE_WRITE then
    some ("Write", "(Lorg/collectd/api/ValueList;)I")
  else if type = CB_TYPE_SHUTDOWN then some ("Shutdown", "()I")
  else none

/-- `cjni_callback_info_create`: pick the method name and signature for
the kind, copy the name string, resolve the method on the callback
object's class, store the callback reference passed by the caller in
`cbi->object`, and call `NewGlobalRef` on the callback object — whose
returned handle (minted from `nextGlobal`) is not assigned anywhere.
Returns the descriptor (or `none` for an unknown kind) together with the
list of global references created during the call. -/
def cjni_callback_info_create (nextGlobal : Nat) (name : String)
    (o_callback : JRef) (type : Int) :
    Option cjni_callback_info_t × List JRef :=
  match cjni_callback_method_of_type type with
  | none => (none, [])
  | some (method_name, _signature) =>
    (some { name := name, type := type, object := some o_callback,
            method := method_name },
     [JRef.globalRef nextGlobal])

/-- `cjni_init_plugins`: walk `java_callbacks` in registration order; for
every CB_TYPE_INIT entry invoke its managed method (the `callInt` oracle,
keyed by the descriptor's object reference); when the status is non-zero,
call `plugin_unregister_read` with the callback's name and keep going.
Returns the function's status (always 0), the objects invoked in order,
and the names passed to `plugin_unregister_read` in order. -/
def cjni_init_plugins (callInt : Option JRef → Int) :
    List cjni_callback_info_t → Int × List (Option JRef) × List String
  | [] => (0, [], [])
  | cb :: rest =>
    if cb.type = CB_TYPE_INIT then
      let status := callInt cb.object
      let r := cjni_init_plugins callInt rest
      if status ≠ 0 then (0, cb.object :: r.2.1, cb.name :: r.2.2)
      else (0, cb.object :: r.2.1, r.2.2)
    else cjni_init_plugins callInt rest

/-
Shutdown: `cjni_shutdown` over the process-wide plugin state.
-/

/-- `java_plugin_class_t`: a loaded plugin class (name and the reference
stored for its instance). -/
structure java_plugin_class_t where
  name : String
  object : Option JRef
deriving DecidableEq, Repr

/-- The process-wide mutable state of the plugin that `cjni_shutdown`
tears down: the `jvm` handle (modelled by whether it is non-null), the
callback registry, the loaded-class list, the JVM argument list and the
copied Plugin blocks. -/
structure JavaPluginState where
  jvm : Bool
  java_callbacks : List cjni_callback_info_t
  java_classes_list : List java_plugin_class_t
  jvm_argv : List String
  java_plugin_configs : List java_plugin_config_t

/-- `cjni_shutdown`: if `jvm` is already null return 0 immediately.
Otherwise attach the current thread (on failure return -1 with nothing
released), run the Shutdown callbacks, call `DeleteGlobalRef` once on
every non-null callback object and every non-null class object (clearing
each field), empty both lists, destroy the JVM (clearing `jvm`), and free
the argument list and the stored Plugin blocks.  Returns the status, the
final state, and the references passed to `DeleteGlobalRef`, in order. -/
def cjni_shutdown (attachOk : Bool) (s : JavaPluginState) :
    Int × JavaPluginState × List JRef :=
  if s.jvm = false then (0, s, [])
  else if attachOk = false then (-1, s, [])
  else
    let deleted := s.java_callbacks.filterMap (fun cb => cb.object)
      ++ s.java_classes_list.filterMap (fun c => c.object)
    (0,
     { jvm := false, java_callbacks := [], java_classes_list := [],
       jvm_argv := [], java_plugin_configs := [] },
     deleted)

/-
Steady state: `cjni_read` and `cjni_write`.

Both check the JVM handle and the user data, attach the thread, invoke
the managed callback (whose return status is the oracle argument), and
detach; the value they return is the detach status.  `cjni_write`
additionally converts the value list, and on conversion failure returns
-1 while still attached.
-/

/-- `cjni_read`: check `jvm` and the user data, attach, call the managed
Read method — whose status is immediately overwritten by the status of
`cjni_thread_detach` — and return that detach status (-1 if non-zero).
The unreachable detach-assert path is rendered as (-1, unchanged). -/
def cjni_read (jvmUp udOk attachOk : Bool) (callbackStatus : Int)
    (ts : ThreadState) : Int × ThreadState :=
  if jvmUp = false then (-1, ts)
  else if udOk = false then (-1, ts)
  else
    match cjni_thread_attach attachOk ts with
    | (none, ts1) => (-1, ts1)
    | (some _, ts1) =>
      let _cb_status := callbackStatus
      match cjni_thread_detach ts1 with
      | none => (-1, ts1)
      | some (st, ts2) => if st ≠ 0 then (-1, ts2) else (st, ts2)

/-- `cjni_write`: check `jvm` and the user data, attach, convert the
native value list with `ctoj_value_list` — returning -1 with no detach
when the conversion fails — then call the managed Write method and return
the status of `cjni_thread_detach` (-1 if non-zero). -/
def cjni_write (jvmUp udOk attachOk : Bool) (ds : data_set_t)
    (vl : value_list_t) (callbackStatus : Int) (ts : ThreadState) :
    Int × ThreadState :=
  if jvmUp = false then (-1, ts)
  else if udOk = false then (-1, ts)
  else
    match cjni_thread_attach attachOk ts with
    | (none, ts1) => (-1, ts1)
    | (some _, ts1) =>
      match ctoj_value_list ds vl with
      | none => (-1, ts1)
      | some _vl_java =>
        let _cb_status := callbackStatus
        match cjni_thread_detach ts1 with
        | none => (-1, ts1)
        | some (st, ts2) => if st ≠ 0 then (-1, ts2) else (st, ts2)

/-- Constructor key of a managed OConfigItem. -/
def OCItem.key : OCItem → String
  | .mk k _ => k

/-- Call trace of a managed OConfigItem. -/
def OCItem.calls : OCItem → List (String × (OCValueJ ⊕ OCItem))
  | .mk _ c => c

/-
Concrete inputs used by counterexamples and witnesses.
-/

/-- A one-field GAUGE schema. -/
def exDS4 : data_set_t :=
  { type := "gauge", ds := [{ name := "value", type := DS_TYPE_GAUGE,
                              min := 0, max := 0 }] }

/-- A native value list with time 1000 s and interval 10 s. -/
def exVL4 : value_list_t :=
  { values := [{ counter := 0, gauge := 25 }], time := 1000, interval := 10,
    host := "localhost", plugin := "java", plugin_instance := "",
    type := "gauge", type_instance := "" }

/-- The managed object `ctoj_value_list` builds from `exDS4` / `exVL4`. -/
def exVLJ4 : ValueListJ :=
  { dataset := { type := "gauge",
                 sources := [{ name := "value", type := DS_TYPE_GAUGE,
                               min := 0, max := 0 }] },
    host := "localhost", plugin := "java", plugin_instance := "",
    type := "gauge", type_instance := "",
    time := 1000000, interval := 10, values := [NumberJ.double 25] }

/-- A managed ValueList on which every accessor chain fails at the first
step (`GetObjectClass` returns null). -/
def exFailObj : JValueListObj :=
  { classOk := false, getType := none, getHost := none, getPlugin := none,
    getPluginInstance := none, getTypeInstance := none, getTime := none,
    getInterval := none, getValues := none }

/-- A Plugin configuration block named GenericJMX. -/
def exCI2 : oconfig_item_t := .mk "Plugin" [.string "GenericJMX"] []

/-- A stored Plugin block with the same name. -/
def exStored2 : java_plugin_config_t :=
  { name := "GenericJMX", ci := .mk "Plugin" [.string "GenericJMX"] [] }

/-- A configuration node with one scalar value and one child node. -/
def exOCParent : oconfig_item_t :=
  .mk "Plugin" [.string "x"] [.mk "Host" [.string "h"] []]

/-- A one-field schema whose field type is neither COUNTER nor GAUGE. -/
def exDS9 : data_set_t :=
  { type := "bad", ds := [{ name := "value", type := 2, min := 0, max := 0 }] }

/-- A native value list matching `exDS9` in arity. -/
def exVL9 : value_list_t :=
  { values := [{ counter := 0, gauge := 0 }], time := 0, interval := 0,
    host := "h", plugin := "java", plugin_instance := "",
    type := "bad", type_instance := "" }

/-- A plugin state holding one registered callback and one loaded class. -/
def exState8 : JavaPluginState :=
  { jvm := true,
    java_callbacks := [{ name := "cb", type := CB_TYPE_SHUTDOWN,
                         object := some (JRef.localRef 1), method := "Shutdown" }],
    java_classes_list := [{ name := "org.collectd.java.GenericJMX",
                            object := some (JRef.localRef 2) }],
    jvm_argv := ["-verbose:jni"],
    java_plugin_configs := [exStored2] }

/-
The claims.
-/

/-- C1: for every managed value list handed to `cjni_api_dispatch_values`,
either the managed-to-native conversion fails, the call returns the error
status -1 and `plugin_dispatch_values` is called zero times, or the whole
conversion succeeds and `plugin_dispatch_values` is called exactly once,
with the converted record. -/
theorem C1_dispatch_values_no_partial_dispatch (pdv : value_list_t → Int)
    (dsl : String → Option data_set_t) (o : JValueListObj) :
    (jtoc_value_list dsl o = none ∧
       cjni_api_dispatch_values pdv dsl o = (-1, []))
    ∨ (∃ vl, jtoc_value_list dsl o = some vl ∧
         cjni_api_dispatch_values pdv dsl o = (pdv vl, [vl])) := by
  rcases h : jtoc_value_list dsl o with _ | vl
  · exact Or.inl ⟨rfl, by simp [cjni_api_dispatch_values, h]⟩
  · exact Or.inr ⟨vl, rfl, by simp [cjni_api_dispatch_values, h]⟩

/-- C2: a Plugin block whose name is already stored leaves the stored
list unchanged, produces a warning, and the call returns 0. -/
theorem C2_duplicate_plugin_block_first_wins
    (configs : List java_plugin_config_t) (ci : oconfig_item_t) (nm : String)
    (hv : ci.values = [oconfig_value_t.string nm])
    (hdup : ∃ c ∈ configs, c.name = nm) :
    (cjni_config_plugin_block configs ci).status = 0 ∧
    (cjni_config_plugin_block configs ci).configs = configs ∧
    (cjni_config_plugin_block configs ci).warnings ≠ [] := by
  have hany : configs.any (fun c => c.name = nm) = true := by
    rw [List.any_eq_true]
    obtain ⟨c, hc, he⟩ := hdup
    exact ⟨c, hc, by simp [he]⟩
  unfold cjni_config_plugin_block
  rw [hv]
  simp [hany]

/-- C2 witness: registering GenericJMX twice keeps the single stored
block, returns 0 and warns. -/
theorem C2_witness :
    (cjni_config_plugin_block [exStored2] exCI2).status = 0 ∧
    (cjni_config_plugin_block [exStored2] exCI2).configs = [exStored2] ∧
    (cjni_config_plugin_block [exStored2] exCI2).warnings ≠ [] :=
  C2_duplicate_plugin_block_first_wins [exStored2] exCI2 "GenericJMX" rfl
    ⟨exStored2, by simp, rfl⟩

/-- C3: the sequence attach, attach, detach, detach performs exactly one
runtime attach and one runtime detach; attach, detach, attach, detach
performs two of each; an attach finding a positive reference counter only
increments it and reuses the stored JNIEnv (no runtime attach); a detach
leaving the counter positive performs no runtime detach; only the detach
that brings the counter to zero performs the runtime detach. -/
theorem C3_attach_detach_reference_counting :
    ((detachStep (detachStep (attachStep (attachStep threadFresh)))).attachCalls = 1 ∧
     (detachStep (detachStep (attachStep (attachStep threadFresh)))).detachCalls = 1) ∧
    ((detachStep (attachStep (detachStep (attachStep threadFresh)))).attachCalls = 2 ∧
     (detachStep (attachStep (detachStep (attachStep threadFresh)))).detachCalls = 2) ∧
    (∀ (b : Bool) (s : ThreadState) (c : cjni_jvm_env_t),
       s.binding = some c → c.reference_counter > 0 →
       (cjni_thread_attach b s).1 = c.jvm_env ∧
       (cjni_thread_attach b s).2.binding =
         some ({ c with reference_counter := c.reference_counter + 1 }) ∧
       (cjni_thread_attach b s).2.attachCalls = s.attachCalls ∧
       (cjni_thread_attach b s).2.detachCalls = s.detachCalls) ∧
    (∀ (s : ThreadState) (c : cjni_jvm_env_t) (e : Nat),
       s.binding = some c → c.jvm_env = some e → c.reference_counter > 1 →
       ∃ s2, cjni_thread_detach s = some (0, s2) ∧
         s2.binding = some ({ c with reference_counter := c.reference_counter - 1 }) ∧
         s2.attachCalls = s.attachCalls ∧ s2.detachCalls = s.detachCalls) ∧
    (∀ (s : ThreadState) (c : cjni_jvm_env_t) (e : Nat),
       s.binding = some c → c.jvm_env = some e → c.reference_counter = 1 →
       ∃ s2, cjni_thread_detach s = some (0, s2) ∧
         s2.binding = some ({ jvm_env := none, reference_counter := 0 }) ∧
         s2.attachCalls = s.attachCalls ∧ s2.detachCalls = s.detachCalls + 1) := by
  refine ⟨by decide, by decide, ?_, ?_, ?_⟩
  · intro b s c h1 h2
    simp [cjni_thread_attach, h1, h2]
  · intro s c e h1 h2 h3
    have hle : ¬ c.reference_counter ≤ 0 := by omega
    have hgt : c.reference_counter - 1 > 0 := by omega
    refine ⟨{ s with
        binding := some ({ jvm_env := some e, reference_counter := c.reference_counter - 1 }) },
      ?_, ?_, ?_, ?_⟩ <;>
      simp [cjni_thread_detach, h1, h2, hle, hgt]
  · intro s c e h1 h2 h3
    refine ⟨{ s with
        binding := some ({ jvm_env := none, reference_counter := 0 }),
        detachCalls := s.detachCalls + 1 },
      ?_, ?_, ?_, ?_⟩ <;>
      simp [cjni_thread_detach, h1, h2, h3]

/-- C3 witness: a detach at reference counter 1 performs the runtime
detach and clears the stored JNIEnv. -/
theorem C3_witness :
    ∃ s2, cjni_thread_detach
      { binding := some ({ jvm_env := some 0, reference_counter := 1 }),
        attachCalls := 1, detachCalls := 0 } = some (0, s2) ∧
      s2.binding = some ({ jvm_env := none, reference_counter := 0 }) ∧
      s2.attachCalls = 1 ∧ s2.detachCalls = 0 + 1 :=
  C3_attach_detach_reference_counting.2.2.2.2
    { binding := some ({ jvm_env := some 0, reference_counter := 1 }),
      attachCalls := 1, detachCalls := 0 }
    { jvm_env := some 0, reference_counter := 1 } 0 rfl rfl rfl

/-- C4 counterexample: on a value list with interval 10 s the managed
object built by `ctoj_value_list` carries interval 10, not 10 * 1000 —
the interval field is not multiplied by 1000 at the boundary (the time
field is: 1000 s becomes 1000000). -/
theorem C4_interval_not_scaled_counterexample :
    (ctoj_value_list exDS4 exVL4).map ValueListJ.interval = some 10 ∧
    ¬ ((ctoj_value_list exDS4 exVL4).map ValueListJ.interval =
        some (exVL4.interval * 1000)) ∧
    (ctoj_value_list exDS4 exVL4).map ValueListJ.time = some 1000000 := by
  decide

/-- C4 amended: only the timestamp is unit-converted at the boundary —
native seconds are multiplied by 1000 going native-to-managed and the
managed milliseconds are divided by 1000 (truncating) going
managed-to-native; the interval field is passed through without unit
conversion in both directions (with a narrowing `(int)` cast
managed-to-native). -/
theorem C4_time_scaled_interval_passthrough :
    (∀ (ds : data_set_t) (vl : value_list_t) (o : ValueListJ),
       ctoj_value_list ds vl = some o →
       o.time = vl.time * 1000 ∧ o.interval = vl.interval) ∧
    (∀ (dsl : String → Option data_set_t) (ob : JValueListObj)
       (vl : value_list_t),
       jtoc_value_list dsl ob = some vl →
       ∃ t iv, ob.getTime = some t ∧ ob.getInterval = some iv ∧
         vl.time = cDiv t 1000 ∧ vl.interval = toInt32 iv) := by
  constructor
  · intro ds vl o h
    unfold ctoj_value_list at h
    split at h
    · exact absurd h (by simp)
    · rename_i nums hm
      simp only [Option.some.injEq] at h
      subst h
      exact ⟨rfl, rfl⟩
  · intro dsl ob vl h
    unfold jtoc_value_list at h
    split at h
    · exact absurd h (by simp)
    split at h
    · exact absurd h (by simp)
    rename_i ty hty
    split at h
    · exact absurd h (by simp)
    rename_i ds hds
    split at h
    · exact absurd h (by simp)
    rename_i host hhost
    split at h
    · exact absurd h (by simp)
    rename_i plugin hplugin
    split at h
    · exact absurd h (by simp)
    rename_i pinst hpinst
    split at h
    · exact absurd h (by simp)
    rename_i tinst htinst
    split at h
    · exact absurd h (by simp)
    rename_i t ht
    split at h
    · exact absurd h (by simp)
    rename_i iv hiv
    split at h
    · exact absurd h (by simp)
    rename_i vals hvals
    simp only [Option.some.injEq] at h
    subst h
    exact ⟨t, iv, ht, hiv, rfl, rfl⟩

/-- C4 witness: at the concrete schema and value list, the managed time
is 1000 * 1000 and the managed interval equals the native interval. -/
theorem C4_witness :
    exVLJ4.time = exVL4.time * 1000 ∧ exVLJ4.interval = exVL4.interval :=
  C4_time_scaled_interval_passthrough.1 exDS4 exVL4 exVLJ4 (by decide)

/-- C5: converting a configuration node with one value and one child
performs two managed calls, in order: the value through the method
resolved from addValue, then the converted child — also through the
method resolved from addValue, not addChild (java.c line 579 passes
`m_addvalue` in the child loop; `m_addchild` is resolved but unused).
Values are added before children and both keep insertion order. -/
theorem C5_children_added_via_addvalue_method :
    ctoj_oconfig_item exOCParent =
      OCItem.mk "Plugin"
        [("addValue", Sum.inl (OCValueJ.string "x")),
         ("addValue", Sum.inr (OCItem.mk "Host"
            [("addValue", Sum.inl (OCValueJ.string "h"))]))] ∧
    (ctoj_oconfig_item exOCParent).calls.map Prod.fst =
      ["addValue", "addValue"] := by
  exact ⟨rfl, rfl⟩

/-- C6: `cjni_init_plugins` invokes exactly the Init-kind callbacks, in
registration order; the names handed to `plugin_unregister_read` are
exactly those of the Init callbacks whose managed method returned
non-zero, in order (iteration continues after a failure); and the
function returns 0. -/
theorem C6_init_plugins_order_unregister_continue
    (callInt : Option JRef → Int) (cbs : List cjni_callback_info_t) :
    (cjni_init_plugins callInt cbs).1 = 0 ∧
    (cjni_init_plugins callInt cbs).2.1 =
      (cbs.filter (fun cb => cb.type = CB_TYPE_INIT)).map
        (fun cb => cb.object) ∧
    (cjni_init_plugins callInt cbs).2.2 =
      (cbs.filter (fun cb => cb.type = CB_TYPE_INIT ∧
          callInt cb.object ≠ 0)).map (fun cb => cb.name) := by
  induction cbs with
  | nil => simp [cjni_init_plugins]
  | cons cb rest ih =>
    by_cases h : cb.type = CB_TYPE_INIT
    · by_cases h2 : callInt cb.object = 0
      · simp [cjni_init_plugins, h, h2, ih.2.1, ih.2.2]
      · simp [cjni_init_plugins, h, h2, ih.2.1, ih.2.2]
    · simp [cjni_init_plugins, h, ih.1, ih.2.1, ih.2.2]

/-- C7: `cjni_callback_info_create` stores in the descriptor's object
field the caller-scoped reference it was given, not the handle minted by
`NewGlobalRef` (whose result the call discards): at a concrete Read
registration the stored object is the local reference 5 while the
global reference 0 created by the call is distinct from it. -/
theorem C7_descriptor_stores_local_not_global_ref :
    (cjni_callback_info_create 0 "jmx" (JRef.localRef 5) CB_TYPE_READ).1 =
      some { name := "jmx", type := CB_TYPE_READ,
             object := some (JRef.localRef 5), method := "Read" } ∧
    (cjni_callback_info_create 0 "jmx" (JRef.localRef 5) CB_TYPE_READ).2 =
      [JRef.globalRef 0] ∧
    (some (JRef.localRef 5) : Option JRef) ≠ some (JRef.globalRef 0) := by
  decide

/-- C8: a first `cjni_shutdown` on a live JVM returns 0 and passes to
`DeleteGlobalRef` exactly the reference stored in each registered
callback descriptor and each loaded class, each contributed once, in
order; a second call on the resulting state (the JVM handle now cleared)
releases nothing and returns 0, whatever its attach outcome. -/
theorem C8_shutdown_releases_once_second_call_noop (b b2 : Bool)
    (s : JavaPluginState) (hjvm : s.jvm = true) (hb : b = true) :
    (cjni_shutdown b s).1 = 0 ∧
    (cjni_shutdown b s).2.2 =
      s.java_callbacks.filterMap (fun cb => cb.object)
        ++ s.java_classes_list.filterMap (fun c => c.object) ∧
    cjni_shutdown b2 (cjni_shutdown b s).2.1 =
      (0, (cjni_shutdown b s).2.1, []) := by
  subst hb
  simp [cjni_shutdown, hjvm]

/-- C8 witness: on a state with one registered callback and one loaded
class, the first shutdown releases exactly their two stored references
and the second shutdown releases nothing and returns 0. -/
theorem C8_witness :
    (cjni_shutdown true exState8).1 = 0 ∧
    (cjni_shutdown true exState8).2.2 =
      exState8.java_callbacks.filterMap (fun cb => cb.object)
        ++ exState8.java_classes_list.filterMap (fun c => c.object) ∧
    cjni_shutdown true (cjni_shutdown true exState8).2.1 =
      (0, (cjni_shutdown true exState8).2.1, []) :=
  C8_shutdown_releases_once_second_call_noop true true exState8 rfl rfl

/-- After an attach that returned a JNIEnv, the thread's binding holds a
positive reference counter and that same JNIEnv. -/
theorem cjni_thread_attach_success_binding (b : Bool) (s : ThreadState)
    (e : Nat)
    (h : (cjni_thread_attach b s).1 = some e) :
    ∃ c : cjni_jvm_env_t,
      (cjni_thread_attach b s).2.binding = some c ∧
      c.reference_counter > 0 ∧ c.jvm_env = some e := by
  unfold cjni_thread_attach at h ⊢
  set cenv := s.binding.getD { jvm_env := none, reference_counter := 0 } with hc
  by_cases hrc : cenv.reference_counter > 0
  · simp only [hrc, if_true] at h ⊢
    exact ⟨{ cenv with reference_counter := cenv.reference_counter + 1 },
      rfl, by simp; omega, by simpa using h⟩
  · cases b with
    | false => simp [hrc] at h
    | true =>
      simp only [hrc, if_false, if_true] at h ⊢
      simp only [Option.some.injEq] at h
      exact ⟨{ jvm_env := some s.attachCalls, reference_counter := 1 },
        rfl, by simp, by rw [h]⟩

/-- A thread whose binding has a positive counter and a stored JNIEnv
detaches with status 0. -/
theorem cjni_thread_detach_of_attached (s : ThreadState)
    (c : cjni_jvm_env_t) (e : Nat) (h1 : s.binding = some c)
    (h2 : c.jvm_env = some e) (h3 : c.reference_counter > 0) :
    ∃ ts2, cjni_thread_detach s = some (0, ts2) := by
  have hle : ¬ c.reference_counter ≤ 0 := by omega
  by_cases hgt : c.reference_counter - 1 > 0
  · exact ⟨{ s with
      binding := some ({ jvm_env := some e, reference_counter := c.reference_counter - 1 }) },
      by simp [cjni_thread_detach, h1, h2, hle, hgt]⟩
  · exact ⟨{ s with
      binding := some ({ jvm_env := none, reference_counter := 0 }),
      detachCalls := s.detachCalls + 1 },
      by simp [cjni_thread_detach, h1, h2, hle, hgt]⟩

/-- C9: evaluating `cjni_write` on a live JVM, valid user data, a fresh
thread and a value list whose schema type is neither COUNTER nor GAUGE —
so that `ctoj_value_list` fails — returns -1 after having performed one
runtime attach and zero runtime detaches: the thread is left attached
with reference counter 1, so this return path does not match the attach
with a detach. -/
theorem C9_write_conversion_failure_skips_detach :
    cjni_write true true true exDS9 exVL9 0 threadFresh =
      (-1, { binding := some ({ jvm_env := some 0, reference_counter := 1 }),
             attachCalls := 1, detachCalls := 0 }) := by
  decide

/-- C10: whenever `cjni_read` is entered with a live JVM and valid user
data and the thread attach yields a JNIEnv, the function returns 0 — the
status of the subsequent detach — independently of the integer the
managed Read callback returned, so a Read callback's failure status is
never propagated to the scheduler. -/
theorem C10_read_returns_detach_status (attachOk : Bool)
    (cb cb2 : Int) (ts : ThreadState) (e : Nat)
    (h : (cjni_thread_attach attachOk ts).1 = some e) :
    (cjni_read true true attachOk cb ts).1 = 0 ∧
    cjni_read true true attachOk cb ts = cjni_read true true attachOk cb2 ts := by
  obtain ⟨c, hb, hrc, he⟩ := cjni_thread_attach_success_binding attachOk ts e h
  obtain ⟨ts2, hd⟩ :=
    cjni_thread_detach_of_attached (cjni_thread_attach attachOk ts).2 c e hb he hrc
  constructor
  · unfold cjni_read
    rcases hp : cjni_thread_attach attachOk ts with ⟨oe, ts1⟩
    rw [hp] at h hd
    simp only at h hd
    subst h
    simp [hd]
  · rfl

/-- C10 witness: on a fresh thread, with the managed Read callback
returning the failure status -1, `cjni_read` still returns 0, and its
result does not depend on the callback's status at all. -/
theorem C10_witness :
    (cjni_read true true true (-1) threadFresh).1 = 0 ∧
    cjni_read true true true (-1) threadFresh =
      cjni_read true true true 7 threadFresh :=
  C10_read_returns_detach_status true (-1) 7 threadFresh 0 (by decide)

end CollectdJava
